import Mathlib

/-!
Verification of the rebind engine of the Rust-vJoy-Manager repository.

The Rust sources are embedded shallowly:
* machine integers (`u8`, `u32`, `usize`) become `Nat` with explicit wrap-around
  (`% 2^64`) where the source relies on release-mode wrapping arithmetic;
* `i32` axis values become `Int`;
* `f64`/`f32` quantities (times, coefficients, axis parameters) become `Rat`,
  except inside the axis parameterization pipeline, whose `powf` linearity curve
  is modelled over the reals via `Real.rpow`;
* fallible Rust functions returning `Result<T, Error>` become `Except Error T`;
* `&mut` state updates become explicit state passing (functions return the
  updated value alongside their result).
-/

/-- Shift mode mask, from `src/rebind/shift_mode_mask.rs`: `pub struct ShiftModeMask(pub u8)`.
The `u8` payload is modelled as a `Nat`; all masks produced by the program are `< 256`. -/
structure ShiftModeMask where
  val : Nat
deriving DecidableEq, Repr

/-- Error type, from `src/error.rs` (`pub enum Error`), restricted to the variants reachable
from the rebind engine. Payloads mirror the Rust ones (device name/id and channel). -/
inductive Error where
  | EmptyRebindOrInvalidID : Error
  | RebindProcessingFailed : String → Error
  | RebindValidatePhysicalButtonFailed : String → Nat → Error
  | RebindValidatePhysicalHatFailed : String → Nat → Error
  | RebindValidatePhysicalAxisFailed : String → Nat → Error
  | RebindValidateVirtualButtonFailed : Nat → Nat → Error
  | RebindValidateVirtualHatFailed : Nat → Nat → Error
  | RebindValidateVirtualAxisFailed : Nat → Nat → Error
deriving DecidableEq, Repr

/-- Per-tick snapshot of one physical device, from `src/input/input_state.rs`:
`buttons: Vec<bool>`, `axes: Vec<i32>`, `hats: Vec<i32>` (plot data is GUI-only and omitted). -/
structure InputState where
  buttons : List Bool
  axes : List Int
  hats : List Int
deriving DecidableEq, Repr

/-- Physical device, from `src/input/mod.rs` (`pub struct PhysicalDevice`): the stable GUID and
the sampled input state (the SDL handle and plot buffers are I/O- and GUI-only and omitted). -/
structure PhysicalDevice where
  guid : String
  input_state : InputState
deriving DecidableEq, Repr

/-- Button state of the vjoy back-end (`vjoy::ButtonState`). -/
inductive ButtonState where
  | Released : ButtonState
  | Pressed : ButtonState
deriving DecidableEq, Repr

/-- Four-way hat of the vjoy back-end (`vjoy::FourWayHat`). -/
inductive FourWayHat where
  | Centered : FourWayHat
  | North : FourWayHat
  | East : FourWayHat
  | South : FourWayHat
  | West : FourWayHat
deriving DecidableEq, Repr

/-- Hat state of the vjoy back-end (`vjoy::HatState`): discrete four-way or continuous
hundredths of a degree (`u32`, with `u32::MAX` as the centered sentinel). -/
inductive HatState where
  | Discrete : FourWayHat → HatState
  | Continuous : Nat → HatState
deriving DecidableEq, Repr

/-- Cached state of one vjoy device (`vjoy::Device`): id plus the button/axis/hat channels.
The per-channel `get`/`set` handles of the crate become positional reads/writes on the lists. -/
structure Device where
  id : Nat
  buttons : List ButtonState
  axes : List Int
  hats : List HatState
deriving DecidableEq, Repr

/-- Virtual device wrapper, from `src/input/mod.rs` (`pub struct VirtualDevice`): the vjoy id and
the cached device handle (plot buffers omitted). -/
structure VirtualDevice where
  id : Nat
  handle : Device
deriving DecidableEq, Repr

/-- Wrapping subtraction of 1 on a `usize`, modelling the release-build semantics of the Rust
expression `channel as usize - 1` that every validator uses on its 1-based channel index:
for `channel = 0` the subtraction wraps to `usize::MAX = 2^64 - 1`. -/
def usize_wrapping_sub_one (n : Nat) : Nat :=
  (n + (2 ^ 64 - 1)) % 2 ^ 64

/-- Validator from `src/rebind/mod.rs` (`validate_value_physical_button`): find the physical
device whose GUID matches, then read button number `src_button` (1-based). -/
def validate_value_physical_button (physical_devices : List PhysicalDevice)
    (src_device : String) (src_button : Nat) : Except Error Bool :=
  match (physical_devices.find? (fun d => d.guid = src_device)).bind
      (fun d => d.input_state.buttons.get? (usize_wrapping_sub_one src_button)) with
  | some b => .ok b
  | none => .error (.RebindValidatePhysicalButtonFailed src_device src_button)

/-- Validator from `src/rebind/mod.rs` (`validate_value_physical_hat`). -/
def validate_value_physical_hat (physical_devices : List PhysicalDevice)
    (src_device : String) (src_hat : Nat) : Except Error Int :=
  match (physical_devices.find? (fun d => d.guid = src_device)).bind
      (fun d => d.input_state.hats.get? (usize_wrapping_sub_one src_hat)) with
  | some h => .ok h
  | none => .error (.RebindValidatePhysicalHatFailed src_device src_hat)

/-- Validator from `src/rebind/mod.rs` (`validate_value_physical_axis`). -/
def validate_value_physical_axis (physical_devices : List PhysicalDevice)
    (src_device : String) (src_axis : Nat) : Except Error Int :=
  match (physical_devices.find? (fun d => d.guid = src_device)).bind
      (fun d => d.input_state.axes.get? (usize_wrapping_sub_one src_axis)) with
  | some a => .ok a
  | none => .error (.RebindValidatePhysicalAxisFailed src_device src_axis)

/-- Validator from `src/rebind/mod.rs` (`validate_value_virtual_button`): find the virtual
device whose id matches, read button `src_button` (1-based) and convert to `bool`. -/
def validate_value_virtual_button (virtual_devices : List VirtualDevice)
    (src_device : Nat) (src_button : Nat) : Except Error Bool :=
  match (virtual_devices.find? (fun d => d.id = src_device)).bind
      (fun d => d.handle.buttons.get? (usize_wrapping_sub_one src_button)) with
  | some b => .ok (match b with | .Released => false | .Pressed => true)
  | none => .error (.RebindValidateVirtualButtonFailed src_device src_button)

/-- Mutable-handle validator from `src/rebind/mod.rs` (`validate_handle_virtual_button`).
The `&mut Button` result is modelled as the pair (index of the device in the list,
button index inside the device); reads and writes then go through these indices. -/
def validate_handle_virtual_button (virtual_devices : List VirtualDevice)
    (dst_device : Nat) (dst_button : Nat) : Except Error (Nat × Nat) :=
  match virtual_devices.findIdx? (fun d => d.id = dst_device) with
  | some di =>
    match virtual_devices.get? di with
    | some d =>
      let bi := usize_wrapping_sub_one dst_button
      if bi < d.handle.buttons.length then .ok (di, bi)
      else .error (.RebindValidateVirtualButtonFailed dst_device dst_button)
    | none => .error (.RebindValidateVirtualButtonFailed dst_device dst_button)
  | none => .error (.RebindValidateVirtualButtonFailed dst_device dst_button)

/-- Mutable-handle validator from `src/rebind/mod.rs` (`validate_handle_virtual_hat`). -/
def validate_handle_virtual_hat (virtual_devices : List VirtualDevice)
    (dst_device : Nat) (dst_hat : Nat) : Except Error (Nat × Nat) :=
  match virtual_devices.findIdx? (fun d => d.id = dst_device) with
  | some di =>
    match virtual_devices.get? di with
    | some d =>
      let hi := usize_wrapping_sub_one dst_hat
      if hi < d.handle.hats.length then .ok (di, hi)
      else .error (.RebindValidateVirtualHatFailed dst_device dst_hat)
    | none => .error (.RebindValidateVirtualHatFailed dst_device dst_hat)
  | none => .error (.RebindValidateVirtualHatFailed dst_device dst_hat)

/-- Mutable-handle validator from `src/rebind/mod.rs` (`validate_handle_virtual_axis`). -/
def validate_handle_virtual_axis (virtual_devices : List VirtualDevice)
    (dst_device : Nat) (dst_axis : Nat) : Except Error (Nat × Nat) :=
  match virtual_devices.findIdx? (fun d => d.id = dst_device) with
  | some di =>
    match virtual_devices.get? di with
    | some d =>
      let ai := usize_wrapping_sub_one dst_axis
      if ai < d.handle.axes.length then .ok (di, ai)
      else .error (.RebindValidateVirtualAxisFailed dst_device dst_axis)
    | none => .error (.RebindValidateVirtualAxisFailed dst_device dst_axis)
  | none => .error (.RebindValidateVirtualAxisFailed dst_device dst_axis)

/-- Read the button behind a mutable handle (`output.get()` on a `&mut vjoy::Button`). -/
def vdevGetButton (virtual_devices : List VirtualDevice) (di bi : Nat) : ButtonState :=
  match (virtual_devices.get? di).bind (fun d => d.handle.buttons.get? bi) with
  | some b => b
  | none => .Released

/-- Write the button behind a mutable handle (`output.set(state)`). -/
def vdevSetButton (virtual_devices : List VirtualDevice) (di bi : Nat)
    (state : ButtonState) : List VirtualDevice :=
  match virtual_devices.get? di with
  | some d =>
    virtual_devices.set di { d with handle := { d.handle with buttons := d.handle.buttons.set bi state } }
  | none => virtual_devices

/-- Read the hat behind a mutable handle (`output.get()` on a `&mut vjoy::Hat`). -/
def vdevGetHat (virtual_devices : List VirtualDevice) (di hi : Nat) : HatState :=
  match (virtual_devices.get? di).bind (fun d => d.handle.hats.get? hi) with
  | some h => h
  | none => .Discrete .Centered

/-- Write the hat behind a mutable handle (`output.set(state)`). -/
def vdevSetHat (virtual_devices : List VirtualDevice) (di hi : Nat)
    (state : HatState) : List VirtualDevice :=
  match virtual_devices.get? di with
  | some d =>
    virtual_devices.set di { d with handle := { d.handle with hats := d.handle.hats.set hi state } }
  | none => virtual_devices

/-- Read the axis behind a mutable handle (`output.get()` on a `&mut vjoy::Axis`). -/
def vdevGetAxis (virtual_devices : List VirtualDevice) (di ai : Nat) : Int :=
  match (virtual_devices.get? di).bind (fun d => d.handle.axes.get? ai) with
  | some a => a
  | none => 0

/-- Write the axis behind a mutable handle (`output.set(state)`). -/
def vdevSetAxis (virtual_devices : List VirtualDevice) (di ai : Nat)
    (state : Int) : List VirtualDevice :=
  match virtual_devices.get? di with
  | some d =>
    virtual_devices.set di { d with handle := { d.handle with axes := d.handle.axes.set ai state } }
  | none => virtual_devices

/-- Truncating division on `Int`, as Rust's `/` on `i64`/`i32` (rounds toward zero). -/
def rust_int_div (a b : Int) : Int := Int.tdiv a b

/-- Rust's `clamp(lo, hi)` on integers. -/
def int_clamp (v lo hi : Int) : Int := min (max v lo) hi

/-- Rust's saturating `f64 as i32` cast: truncate toward zero, saturating at the `i32` bounds. -/
def f64_as_i32 (q : Rat) : Int :=
  int_clamp (if 0 ≤ q then ⌊q⌋ else ⌈q⌉) (-(2 ^ 31)) (2 ^ 31 - 1)

/-- Rust's wrapping `i32 as u32` cast. -/
def i32_as_u32 (i : Int) : Nat := (i % 2 ^ 32).toNat

/-- Rust's `i32::saturating_add`. -/
def i32_saturating_add (a b : Int) : Int := int_clamp (a + b) (-(2 ^ 31)) (2 ^ 31 - 1)

/-- Activation interval parameters, from `src/rebind/activation_interval.rs`
(`pub struct ActivationIntervalParams`). The three `#[serde(skip_serializing)]` fields
(`last_input`, `activation_start`, `activation_end`) are the transient runtime state. -/
structure ActivationIntervalParams where
  interval_start : Rat
  interval_end : Rat
  sustain : Option Rat
  last_input : Bool
  activation_start : Rat
  activation_end : Rat
deriving DecidableEq, Repr

/-- The state machine `ActivationIntervalParams::update` from
`src/rebind/activation_interval.rs` lines 37-68, with the `&mut self` mutation made
explicit: returns the `bool` output together with the updated parameters. -/
def ActivationIntervalParams.update (p : ActivationIntervalParams) (state : Bool)
    (time : Rat) (use_sustain : Bool) : Bool × ActivationIntervalParams :=
  let pressed_this_frame := state && !p.last_input
  let released_this_frame := !state && p.last_input
  let p := { p with last_input := state }
  let p := if pressed_this_frame then { p with activation_start := time } else p
  let p := if released_this_frame then { p with activation_end := time } else p
  let activation_length := time - p.activation_start
  let activation_passed := time - p.activation_end
  let activated_for_interval :=
    decide (p.interval_start ≤ activation_length ∧ activation_length < p.interval_end)
  if state || !activated_for_interval then
    (false, p)
  else if use_sustain then
    match p.sustain with
    | some sustain => (decide (activation_passed < sustain), p)
    | none => (released_this_frame, p)
  else
    (released_this_frame, p)

/-- Modelled from the spec, section 4.1, "ActivationIntervalParams state machine" steps 1-6:
detect edges, record `activation_start` on press and `activation_end` on release, compute
the duration and the time passed since release, then return false while held or outside the
window, `passed < s` when a sustain is in use, and `released` otherwise. This is the
specification-side description of the same state machine, used to check the source against. -/
def ActivationIntervalParams.update_spec (p : ActivationIntervalParams) (state : Bool)
    (time : Rat) (use_sustain : Bool) : Bool :=
  let pressed := state && !p.last_input
  let released := !state && p.last_input
  let activation_start := if pressed then time else p.activation_start
  let activation_end := if released then time else p.activation_end
  let dur := time - activation_start
  let passed := time - activation_end
  let inside := decide (p.interval_start ≤ dur ∧ dur < p.interval_end)
  if state || !inside then
    false
  else
    match use_sustain, p.sustain with
    | true, some s => decide (passed < s)
    | true, none => released
    | false, _ => released

/-- Button-to-button modifier, from `src/rebind/button_to_button.rs`
(`pub enum ButtonToButtonModifier`). -/
inductive ButtonToButtonModifier where
  | Simple : ButtonToButtonModifier
  | Toggle : (last_input : Bool) → ButtonToButtonModifier
  | ActivationIntervalSimple : (params : ActivationIntervalParams) → ButtonToButtonModifier
  | ActivationIntervalToggle : (params : ActivationIntervalParams) → ButtonToButtonModifier
deriving DecidableEq, Repr

/-- The function `apply_button_modifier` from `src/rebind/button_to_button.rs` lines 70-113,
with the `&mut` modifier state made explicit. -/
def apply_button_modifier (input : Bool) (output : ButtonState)
    (modifier : ButtonToButtonModifier) (time : Rat) : ButtonState × ButtonToButtonModifier :=
  match modifier with
  | .Simple =>
    (match input with
     | true => .Pressed
     | false => .Released, .Simple)
  | .Toggle last_input =>
    let current_output_state := output
    let should_toggle := input && input != last_input
    let result :=
      if should_toggle then
        match current_output_state with
        | .Released => ButtonState.Pressed
        | .Pressed => ButtonState.Released
      else current_output_state
    (result, .Toggle input)
  | .ActivationIntervalSimple params =>
    let (fired, params) := params.update input time true
    (if fired then .Pressed else .Released, .ActivationIntervalSimple params)
  | .ActivationIntervalToggle params =>
    let current_output_state := output
    let (fired, params) := params.update input time false
    let result :=
      if fired then
        match current_output_state with
        | .Released => ButtonState.Pressed
        | .Pressed => ButtonState.Released
      else current_output_state
    (result, .ActivationIntervalToggle params)

/-- Axis parameters, from `src/rebind/axis_to_axis.rs` (`pub struct AxisParams`).
`f32` fields become `Rat`; `avg_data: (usize, Vec<i32>)` (the ring-buffer head and samples)
is the `#[serde(skip_serializing)]` transient state. -/
structure AxisParams where
  deadzone_center : Rat
  clamp_min : Rat
  clamp_max : Rat
  invert : Bool
  linearity : Rat
  offset : Rat
  avg_filter : Nat
  avg_data : Nat × List Int
deriving DecidableEq, Repr

/-- Axis-to-axis modifier, from `src/rebind/axis_to_axis.rs` (`pub enum AxisToAxisModifier`). -/
inductive AxisToAxisModifier where
  | Parameterized : (params : AxisParams) → AxisToAxisModifier
deriving DecidableEq, Repr

/-- Rust's `Vec::resize(n, 0)`: truncate to `n` elements or pad with zeros. -/
def listResize (l : List Int) (n : Nat) : List Int :=
  l.take n ++ List.replicate (n - l.length) 0

/-- Rust's `f32::signum` restricted to the reals: 1 for nonnegative values, -1 for negative
values (floating-point `signum` maps `+0.0` to 1). -/
noncomputable def rustSignum (x : Real) : Real := if x < 0 then -1 else 1

/-- The clamp stage of the axis pipeline, `src/rebind/axis_to_axis.rs` lines 179-187:
compute `clamp_min = -32768 + 32768·clamp_min` and `clamp_max = 32767·clamp_max`, then send
values at or below the lower bound to `-32768`, values at or above the upper bound to `32767`,
and pass everything else through. Generic over the ordered field so it can be evaluated
exactly on `Rat` and used inside the real-valued pipeline. -/
def clampStage {α : Type} [LinearOrderedField α] (clamp_min clamp_max v : α) : α :=
  let lo := -32768 + 32768 * clamp_min
  let hi := 32767 * clamp_max
  if v ≤ lo then -32768
  else if hi ≤ v then 32767
  else v

/-- The axis parameterization pipeline `apply_axis_modifier` from
`src/rebind/axis_to_axis.rs` lines 135-198: running-average filter, invert, center deadzone,
min/max clamp, offset, linearity curve, floor. The `f32` arithmetic is modelled over the
reals (`powf` becomes `Real.rpow`); the unused `_output` handle of the source is dropped.
Returns the `i32` result and the updated modifier (the filter ring buffer advances). -/
noncomputable def apply_axis_modifier (input : Int)
    (modifier : AxisToAxisModifier) : Int × AxisToAxisModifier :=
  match modifier with
  | .Parameterized params =>
    let ad :=
      if params.avg_filter ≠ params.avg_data.2.length then
        (0, listResize params.avg_data.2 params.avg_filter)
      else params.avg_data
    let head := ad.1
    let data := ad.2
    let data := if data.length ≤ head then data ++ [input] else data.set head input
    let head := head + 1
    let head := if params.avg_filter ≤ head then 0 else head
    let count : Real := (data.length : Real)
    let sum : Real := ((data.sum : Int) : Real)
    let input_f32 := sum / count
    let inverted_value := if params.invert then input_f32 * (-1) else input_f32
    let deadzone_center_min : Real := -32768 * (params.deadzone_center : Real)
    let deadzone_center_max : Real := 32767 * (params.deadzone_center : Real)
    let deadzone_clamped_value :=
      if deadzone_center_min ≤ inverted_value ∧ inverted_value ≤ deadzone_center_max then 0
      else inverted_value
    let minmax_clamped_value :=
      clampStage (params.clamp_min : Real) (params.clamp_max : Real) deadzone_clamped_value
    let offset_value := minmax_clamped_value + 32767 * (params.offset : Real)
    let linearity_value :=
      rustSignum offset_value * |offset_value / 32767| ^ (params.linearity : Real) * 32767
    (⌊linearity_value⌋, .Parameterized { params with avg_data := (head, data) })

/-- Range conversion `convert_axis_to_vjoy_range` from `src/rebind/axis_to_axis.rs`
lines 200-207: map `[-32768, 32767]` to the vjoy range `[0, 32767]` with `i64` arithmetic,
then clamp. -/
def convert_axis_to_vjoy_range (input : Int) : Int :=
  let low1 : Int := -32768
  let high1 : Int := 32767
  let low2 : Int := 0
  let high2 : Int := 32767
  let mapped_value := low2 + rust_int_div ((input - low1) * (high2 - low2)) (high1 - low1)
  int_clamp mapped_value low2 high2

/-- Two-buttons-to-axis modifier, from `src/rebind/two_buttons_to_axis.rs`
(`pub enum TwoButtonsToAxisModifier`). The `Click` variant's `last_input_neg` and
`last_input_pos` are the `#[serde(skip_serializing)]` transient edge latches. -/
inductive TwoButtonsToAxisModifier where
  | Absolute : TwoButtonsToAxisModifier
  | Linear : (coefficient : Rat) → (keep_value : Bool) → TwoButtonsToAxisModifier
  | Click : (coefficient : Rat) → (last_input_neg : Bool) → (last_input_pos : Bool) →
      TwoButtonsToAxisModifier
deriving DecidableEq, Repr

/-- The function `apply_two_buttons_to_axis_modifier` from
`src/rebind/two_buttons_to_axis.rs` lines 108-182, with the `&mut` modifier state made
explicit. `output` is the current value of the destination axis handle. Note that the
`keep_value` early `return` of the source bypasses the final clamp, which is reproduced here. -/
def apply_two_buttons_to_axis_modifier (input_neg input_pos : Bool) (output : Int)
    (modifier : TwoButtonsToAxisModifier) (delta_t : Rat) : Int × TwoButtonsToAxisModifier :=
  match modifier with
  | .Absolute =>
    let value : Int :=
      match input_neg, input_pos with
      | true, false => 0
      | true, true => 16384
      | false, false => 16384
      | false, true => 32767
    (int_clamp value 0 32767, .Absolute)
  | .Linear coefficient keep_value =>
    let current_output_value := output
    let min_change : Int := 1
    let delta := f64_as_i32 (coefficient * 32767 * delta_t)
    match input_neg, input_pos with
    | true, false =>
      (int_clamp (current_output_value - max delta min_change) 0 32767,
        .Linear coefficient keep_value)
    | false, true =>
      (int_clamp (current_output_value + max delta min_change) 0 32767,
        .Linear coefficient keep_value)
    | false, false =>
      if keep_value then
        (current_output_value, .Linear coefficient keep_value)
      else
        let center_distance := (Int.natAbs (16384 - current_output_value))
        if center_distance ≤ i32_as_u32 delta then
          (int_clamp 16384 0 32767, .Linear coefficient keep_value)
        else
          (int_clamp
            (current_output_value - max delta min_change * Int.sign (current_output_value - 16384))
            0 32767, .Linear coefficient keep_value)
    | true, true =>
      (int_clamp current_output_value 0 32767, .Linear coefficient keep_value)
  | .Click coefficient last_input_neg last_input_pos =>
    let current_output_value := output
    let min_change : Int := 1
    let delta := f64_as_i32 (coefficient * 32767)
    let should_click_neg := input_neg && input_neg != last_input_neg
    let current_output_value :=
      if should_click_neg then current_output_value - max delta min_change
      else current_output_value
    let should_click_pos := input_pos && input_pos != last_input_pos
    let current_output_value :=
      if should_click_pos then current_output_value + max delta min_change
      else current_output_value
    (int_clamp current_output_value 0 32767, .Click coefficient input_neg input_pos)

/-- Merge-axes modifier, from `src/rebind/merge_axes.rs` (`pub enum MergeAxesModifier`). -/
inductive MergeAxesModifier where
  | Add : MergeAxesModifier
deriving DecidableEq, Repr

/-- The function `apply_merge_axes_modifier` from `src/rebind/merge_axes.rs` lines 36-44. -/
def apply_merge_axes_modifier (input_0 input_1 : Int)
    (modifier : MergeAxesModifier) : Int × MergeAxesModifier :=
  match modifier with
  | .Add => (i32_saturating_add input_0 input_1, .Add)

/-- Hat-to-hat modifier, from `src/rebind/hat_to_hat.rs` (`pub enum HatToHatModifier`). -/
inductive HatToHatModifier where
  | Simple : HatToHatModifier
deriving DecidableEq, Repr

/-- The function `apply_hat_modifier` from `src/rebind/hat_to_hat.rs` lines 40-44. -/
def apply_hat_modifier (input : Int) (modifier : HatToHatModifier) : Int × HatToHatModifier :=
  match modifier with
  | .Simple => (input, .Simple)

/-- The function `convert_hat_type_to_vjoy` from `src/rebind/hat_to_hat.rs` lines 46-72:
bucket the degree value into a four-way hat when the target is discrete, or convert to
hundredths of a degree (with `u32::MAX` for centered) when the target is continuous. -/
def convert_hat_type_to_vjoy (hat_type : HatState) (state : Int) : HatState :=
  match hat_type with
  | .Discrete _ =>
    if state = -1 then .Discrete .Centered
    else if ¬(45 ≤ state ∧ state < 315) then .Discrete .North
    else if 45 ≤ state ∧ state < 135 then .Discrete .East
    else if 135 ≤ state ∧ state < 225 then .Discrete .South
    else if 225 ≤ state ∧ state < 315 then .Discrete .West
    else .Discrete .Centered
  | .Continuous _ =>
    if state = -1 then .Continuous (2 ^ 32 - 1)
    else .Continuous (i32_as_u32 (state * 100))

/-- Virtual-axis trim parameters, from `src/rebind/virtual_axis_trim.rs`
(`pub struct VirtualAxisTrimParams`). `accumulated`, `last_input_neg` and `last_input_pos`
are the `#[serde(skip_serializing)]` transient state. -/
structure VirtualAxisTrimParams where
  value_normalized : Rat
  accumulated : Rat
  last_input_neg : Bool
  last_input_pos : Bool
deriving DecidableEq, Repr

/-- Virtual-axis trim modifier, from `src/rebind/virtual_axis_trim.rs`
(`pub enum VirtualAxisTrimModifier`). -/
inductive VirtualAxisTrimModifier where
  | Click : (params : VirtualAxisTrimParams) → VirtualAxisTrimModifier
  | Linear : (params : VirtualAxisTrimParams) → VirtualAxisTrimModifier
deriving DecidableEq, Repr

/-- Rust's `f64::clamp` on `Rat`. -/
def rat_clamp (v lo hi : Rat) : Rat := min (max v lo) hi

/-- The function `apply_virtual_axis_trim_modifier` from `src/rebind/virtual_axis_trim.rs`
lines 85-136, with the `&mut` modifier state made explicit. -/
def apply_virtual_axis_trim_modifier (input : Int) (trim_neg trim_pos trim_reset : Bool)
    (delta_t : Rat) (modifier : VirtualAxisTrimModifier) : Int × VirtualAxisTrimModifier :=
  let axis_normalized_value : Rat := (input : Rat) / 32767
  match modifier with
  | .Click params =>
    let should_trim_neg := trim_neg && trim_neg != params.last_input_neg
    let acc := if should_trim_neg then params.accumulated - params.value_normalized
               else params.accumulated
    let should_trim_pos := trim_pos && trim_pos != params.last_input_pos
    let acc := if should_trim_pos then acc + params.value_normalized else acc
    let acc := rat_clamp acc (-1) 1
    let acc := if trim_reset then 0 else acc
    let params := { params with
      accumulated := acc
      last_input_neg := trim_neg
      last_input_pos := trim_pos }
    let value := axis_normalized_value + acc
    (⌊rat_clamp |value * 32767| 0 32767⌋, .Click params)
  | .Linear params =>
    let acc := if trim_neg then params.accumulated - params.value_normalized * delta_t
               else params.accumulated
    let acc := if trim_pos then acc + params.value_normalized * delta_t else acc
    let acc := rat_clamp acc (-1) 1
    let acc := if trim_reset then 0 else acc
    let params := { params with accumulated := acc }
    let value := axis_normalized_value + acc
    (⌊rat_clamp |value * 32767| 0 32767⌋, .Linear params)

/-- Logical rebinds, from `src/rebind/logical_rebind.rs` (`pub enum LogicalRebind`):
side-effects on the shift mode mask only. -/
inductive LogicalRebind where
  | MomentaryEnableShiftMode : (src_device : String) → (src_button : Nat) →
      (shift_mask : ShiftModeMask) → LogicalRebind
  | MomentaryDisableShiftMode : (src_device : String) → (src_button : Nat) →
      (shift_mask : ShiftModeMask) → LogicalRebind
deriving DecidableEq, Repr

/-- The u8 bitwise complement `!x` of Rust, on the 8-bit payload of a mask. -/
def u8_not (x : Nat) : Nat := x ^^^ 255

/-- The method `LogicalRebind::process` from `src/rebind/logical_rebind.rs` lines 162-198:
read the source physical button; for the enable variant, OR the shift mask in while the
button is pressed and AND its complement in while released; the disable variant does the
opposite. Returns the updated active shift mode. -/
def LogicalRebind.process (r : LogicalRebind) (physical_devices : List PhysicalDevice)
    (active_shift_mode : ShiftModeMask) : Except Error ShiftModeMask :=
  match r with
  | .MomentaryEnableShiftMode src_device src_button shift_mask => do
    let input ← validate_value_physical_button physical_devices src_device src_button
    if input then
      return ⟨active_shift_mode.val ||| shift_mask.val⟩
    else
      return ⟨active_shift_mode.val &&& u8_not shift_mask.val⟩
  | .MomentaryDisableShiftMode src_device src_button shift_mask => do
    let input ← validate_value_physical_button physical_devices src_device src_button
    if input then
      return ⟨active_shift_mode.val &&& u8_not shift_mask.val⟩
    else
      return ⟨active_shift_mode.val ||| shift_mask.val⟩

/-- Reroute rebinds, from `src/rebind/reroute_rebind.rs` (`pub enum RerouteRebind`):
route input from physical devices to a virtual device through a modifier. -/
inductive RerouteRebind where
  | ButtonToButton : (src_device : String) → (src_button : Nat) → (dst_device : Nat) →
      (dst_button : Nat) → (modifier : ButtonToButtonModifier) → RerouteRebind
  | TwoButtonsToAxis : (src_neg_device : String) → (src_neg_button : Nat) →
      (src_pos_device : String) → (src_pos_button : Nat) → (dst_device : Nat) →
      (dst_axis : Nat) → (modifier : TwoButtonsToAxisModifier) → RerouteRebind
  | HatToHat : (src_device : String) → (src_hat : Nat) → (dst_device : Nat) →
      (dst_hat : Nat) → (modifier : HatToHatModifier) → RerouteRebind
  | AxisToAxis : (src_device : String) → (src_axis : Nat) → (dst_device : Nat) →
      (dst_axis : Nat) → (modifier : AxisToAxisModifier) → RerouteRebind
  | MergeAxes : (src_0_device : String) → (src_0_axis : Nat) → (src_1_device : String) →
      (src_1_axis : Nat) → (dst_device : Nat) → (dst_axis : Nat) →
      (modifier : MergeAxesModifier) → RerouteRebind
deriving DecidableEq, Repr

/-- The method `RerouteRebind::process` from `src/rebind/reroute_rebind.rs` lines 550-648:
validate the source and destination references, run the modifier, convert to the vjoy range
where needed, and write to the destination handle. The `&mut self` modifier state and the
`&mut [VirtualDevice]` writes are made explicit in the result. -/
noncomputable def RerouteRebind.process (r : RerouteRebind)
    (physical_devices : List PhysicalDevice) (virtual_devices : List VirtualDevice)
    (time delta_t : Rat) : Except Error (RerouteRebind × List VirtualDevice) :=
  match r with
  | .ButtonToButton src_device src_button dst_device dst_button modifier => do
    let input ← validate_value_physical_button physical_devices src_device src_button
    let output ← validate_handle_virtual_button virtual_devices dst_device dst_button
    let (modified_state, modifier) :=
      apply_button_modifier input (vdevGetButton virtual_devices output.1 output.2) modifier time
    return (.ButtonToButton src_device src_button dst_device dst_button modifier,
      vdevSetButton virtual_devices output.1 output.2 modified_state)
  | .HatToHat src_device src_hat dst_device dst_hat modifier => do
    let input ← validate_value_physical_hat physical_devices src_device src_hat
    let output ← validate_handle_virtual_hat virtual_devices dst_device dst_hat
    let (modified_state, modifier) := apply_hat_modifier input modifier
    let converted_state :=
      convert_hat_type_to_vjoy (vdevGetHat virtual_devices output.1 output.2) modified_state
    return (.HatToHat src_device src_hat dst_device dst_hat modifier,
      vdevSetHat virtual_devices output.1 output.2 converted_state)
  | .AxisToAxis src_device src_axis dst_device dst_axis modifier => do
    let input ← validate_value_physical_axis physical_devices src_device src_axis
    let output ← validate_handle_virtual_axis virtual_devices dst_device dst_axis
    let (modified_state, modifier) := apply_axis_modifier input modifier
    let converted_state := convert_axis_to_vjoy_range modified_state
    return (.AxisToAxis src_device src_axis dst_device dst_axis modifier,
      vdevSetAxis virtual_devices output.1 output.2 converted_state)
  | .MergeAxes src_0_device src_0_axis src_1_device src_1_axis dst_device dst_axis modifier => do
    let input_0 ← validate_value_physical_axis physical_devices src_0_device src_0_axis
    let input_1 ← validate_value_physical_axis physical_devices src_1_device src_1_axis
    let output ← validate_handle_virtual_axis virtual_devices dst_device dst_axis
    let (modified_state, modifier) := apply_merge_axes_modifier input_0 input_1 modifier
    let converted_state := convert_axis_to_vjoy_range modified_state
    return (.MergeAxes src_0_device src_0_axis src_1_device src_1_axis dst_device dst_axis
      modifier, vdevSetAxis virtual_devices output.1 output.2 converted_state)
  | .TwoButtonsToAxis src_neg_device src_neg_button src_pos_device src_pos_button dst_device
      dst_axis modifier => do
    let input_neg ← validate_value_physical_button physical_devices src_neg_device src_neg_button
    let input_pos ← validate_value_physical_button physical_devices src_pos_device src_pos_button
    let output ← validate_handle_virtual_axis virtual_devices dst_device dst_axis
    let (modified_state, modifier) :=
      apply_two_buttons_to_axis_modifier input_neg input_pos
        (vdevGetAxis virtual_devices output.1 output.2) modifier delta_t
    return (.TwoButtonsToAxis src_neg_device src_neg_button src_pos_device src_pos_button
      dst_device dst_axis modifier, vdevSetAxis virtual_devices output.1 output.2 modified_state)

/-- Virtual rebinds, from `src/rebind/virtual_rebind.rs` (`pub enum VirtualRebind`):
read and modify virtual device state. -/
inductive VirtualRebind where
  | VirtualAxisApplyButtonTrim : (axis_device : Nat) → (axis : Nat) →
      (trim_neg_device : Nat) → (trim_neg_button : Nat) → (trim_pos_device : Nat) →
      (trim_pos_button : Nat) → (trim_reset_device : Nat) → (trim_reset_button : Nat) →
      (modifier : VirtualAxisTrimModifier) → VirtualRebind
deriving DecidableEq, Repr

/-- The method `VirtualRebind::process` from `src/rebind/virtual_rebind.rs` lines 207-253. -/
def VirtualRebind.process (r : VirtualRebind) (virtual_devices : List VirtualDevice)
    (delta_t : Rat) : Except Error (VirtualRebind × List VirtualDevice) :=
  match r with
  | .VirtualAxisApplyButtonTrim axis_device axis trim_neg_device trim_neg_button
      trim_pos_device trim_pos_button trim_reset_device trim_reset_button modifier => do
    let trim_neg ← validate_value_virtual_button virtual_devices trim_neg_device trim_neg_button
    let trim_pos ← validate_value_virtual_button virtual_devices trim_pos_device trim_pos_button
    let trim_reset ←
      validate_value_virtual_button virtual_devices trim_reset_device trim_reset_button
    let output ← validate_handle_virtual_axis virtual_devices axis_device axis
    let (modified_state, modifier) :=
      apply_virtual_axis_trim_modifier (vdevGetAxis virtual_devices output.1 output.2)
        trim_neg trim_pos trim_reset delta_t modifier
    return (.VirtualAxisApplyButtonTrim axis_device axis trim_neg_device trim_neg_button
      trim_pos_device trim_pos_button trim_reset_device trim_reset_button modifier,
      vdevSetAxis virtual_devices output.1 output.2 modified_state)

/-- Rebind type tag, from `src/rebind/mod.rs` (`pub enum RebindType`). -/
inductive RebindType where
  | Logical : (rebind : LogicalRebind) → RebindType
  | Reroute : (rebind : RerouteRebind) → RebindType
  | Virtual : (rebind : VirtualRebind) → RebindType
deriving DecidableEq, Repr

/-- A named rebind, from `src/rebind/mod.rs` (`pub struct Rebind`): name, required mode mask
and the typed payload. -/
structure Rebind where
  name : String
  mode_mask : ShiftModeMask
  rebind_type : RebindType
deriving DecidableEq, Repr

/-- The gating test `Rebind::is_active` from `src/rebind/mod.rs` lines 338-349: XOR the
required mask with `0b11111111`, OR with the current mask, and require all 8 low bits set
(the source's `for bit in 0..8` loop becomes a fold over `List.range 8`). -/
def Rebind.is_active (r : Rebind) (active_shift_mode : ShiftModeMask) : Bool :=
  let inv_required_mask := r.mode_mask.val ^^^ 255
  let is_active := active_shift_mode.val ||| inv_required_mask
  (List.range 8).foldl
    (fun active bit => if is_active &&& (1 <<< bit) = 0 then false else active) true

/-- Serializable configuration, from `src/config.rs` (`pub struct Config`): name, default
shift mode and the ordered rebind list. -/
structure Config where
  name : String
  default_shift_mode : ShiftModeMask
  rebinds : List Rebind
deriving DecidableEq, Repr

/-- Modelled from the spec: the current-generation `RebindProcessor` used by `Input::update`
in `src/input/mod.rs` (signature `process(&mut [PhysicalDevice], &mut [VirtualDevice], time,
delta_t)`) is not itself under `src/`; only its callers and the per-rebind `process`
functions are. Per spec section 4.3, its state is the active configuration's rebind list and
the live `ShiftModeMask`, initialized to the config's default mask. -/
structure RebindProcessor where
  active_shift_mode : ShiftModeMask
  rebinds : List Rebind
deriving DecidableEq, Repr

/-- Modelled from the spec, section 4.3: constructing (or loading) the processor with a
`Config` installs the config's rebind list and initializes the current shift mode to
`Config.default_shift_mode`. -/
def RebindProcessor.fromConfig (config : Config) : RebindProcessor :=
  { active_shift_mode := config.default_shift_mode
    rebinds := config.rebinds }

/-- Modelled from the spec, sections 4.3 and 7 (phase 1): evaluate each active `Logical`
rebind in list order with `LogicalRebind::process` (from the source), later rebinds seeing
the updated mask; a per-rebind failure is logged and skipped, leaving the mask unchanged. -/
def phase_logical (physical_devices : List PhysicalDevice) :
    List Rebind → ShiftModeMask → ShiftModeMask
  | [], mask => mask
  | r :: rs, mask =>
    let mask :=
      if r.is_active mask then
        match r.rebind_type with
        | .Logical rebind =>
          match rebind.process physical_devices mask with
          | .ok mask' => mask'
          | .error _ => mask
        | _ => mask
      else mask
    phase_logical physical_devices rs mask

/-- Modelled from the spec, sections 4.3 and 7 (phase 2): evaluate each active `Reroute`
rebind in list order with `RerouteRebind::process` (from the source); a per-rebind failure
is logged and skipped, leaving the rebind state and the virtual devices unchanged, and
processing continues with the remaining rebinds. -/
noncomputable def phase_reroute (physical_devices : List PhysicalDevice)
    (time delta_t : Rat) (mask : ShiftModeMask) :
    List Rebind → List VirtualDevice → List Rebind × List VirtualDevice
  | [], virtual_devices => ([], virtual_devices)
  | r :: rs, virtual_devices =>
    let step :=
      if r.is_active mask then
        match r.rebind_type with
        | .Reroute rebind =>
          match rebind.process physical_devices virtual_devices time delta_t with
          | .ok (rebind', virtual') => ({ r with rebind_type := .Reroute rebind' }, virtual')
          | .error _ => (r, virtual_devices)
        | _ => (r, virtual_devices)
      else (r, virtual_devices)
    let rest := phase_reroute physical_devices time delta_t mask rs step.2
    (step.1 :: rest.1, rest.2)

/-- Modelled from the spec, sections 4.3 and 7 (phase 3): evaluate each active `Virtual`
rebind in list order with `VirtualRebind::process` (from the source); a per-rebind failure
is logged and skipped. -/
def phase_virtual (delta_t : Rat) (mask : ShiftModeMask) :
    List Rebind → List VirtualDevice → List Rebind × List VirtualDevice
  | [], virtual_devices => ([], virtual_devices)
  | r :: rs, virtual_devices =>
    let step :=
      if r.is_active mask then
        match r.rebind_type with
        | .Virtual rebind =>
          match rebind.process virtual_devices delta_t with
          | .ok (rebind', virtual') => ({ r with rebind_type := .Virtual rebind' }, virtual')
          | .error _ => (r, virtual_devices)
        | _ => (r, virtual_devices)
      else (r, virtual_devices)
    let rest := phase_virtual delta_t mask rs step.2
    (step.1 :: rest.1, rest.2)

/-- Modelled from the spec, section 4.3: the per-tick contract
`process(physicals, virtuals, time, delta_t)` runs phase 1 (logical, updating the mask),
phase 2 (reroute, against the updated mask) and phase 3 (virtual) in strict order, swallowing
per-rebind failures; the call itself never fails. -/
noncomputable def RebindProcessor.process (p : RebindProcessor)
    (physical_devices : List PhysicalDevice) (virtual_devices : List VirtualDevice)
    (time delta_t : Rat) : RebindProcessor × List VirtualDevice :=
  let mask := phase_logical physical_devices p.rebinds p.active_shift_mode
  let r2 := phase_reroute physical_devices time delta_t mask p.rebinds virtual_devices
  let r3 := phase_virtual delta_t mask r2.1 r2.2
  ({ active_shift_mode := mask, rebinds := r3.1 }, r3.2)

/-- Persisted form of `ActivationIntervalParams`: the document carries only the fields not
marked `#[serde(skip_serializing)]` in `src/rebind/activation_interval.rs`. -/
structure PersistedActivationIntervalParams where
  interval_start : Rat
  interval_end : Rat
  sustain : Option Rat
deriving DecidableEq, Repr

/-- Persisted form of `AxisParams`: everything except the transient `avg_data` ring buffer
(`src/rebind/axis_to_axis.rs`). -/
structure PersistedAxisParams where
  deadzone_center : Rat
  clamp_min : Rat
  clamp_max : Rat
  invert : Bool
  linearity : Rat
  offset : Rat
  avg_filter : Nat
deriving DecidableEq, Repr

/-- Persisted form of `VirtualAxisTrimParams`: only `value_normalized` is emitted
(`src/rebind/virtual_axis_trim.rs`). -/
structure PersistedVirtualAxisTrimParams where
  value_normalized : Rat
deriving DecidableEq, Repr

/-- Persisted form of `ButtonToButtonModifier` (`src/rebind/button_to_button.rs`); the
`Toggle` latch is not marked `skip_serializing` in the source and therefore persists. -/
inductive PersistedButtonToButtonModifier where
  | Simple : PersistedButtonToButtonModifier
  | Toggle : (last_input : Bool) → PersistedButtonToButtonModifier
  | ActivationIntervalSimple : (params : PersistedActivationIntervalParams) →
      PersistedButtonToButtonModifier
  | ActivationIntervalToggle : (params : PersistedActivationIntervalParams) →
      PersistedButtonToButtonModifier
deriving DecidableEq, Repr

/-- Persisted form of `TwoButtonsToAxisModifier`: the `Click` edge latches are transient
(`src/rebind/two_buttons_to_axis.rs`). -/
inductive PersistedTwoButtonsToAxisModifier where
  | Absolute : PersistedTwoButtonsToAxisModifier
  | Linear : (coefficient : Rat) → (keep_value : Bool) → PersistedTwoButtonsToAxisModifier
  | Click : (coefficient : Rat) → PersistedTwoButtonsToAxisModifier
deriving DecidableEq, Repr

/-- Persisted form of `AxisToAxisModifier`. -/
inductive PersistedAxisToAxisModifier where
  | Parameterized : (params : PersistedAxisParams) → PersistedAxisToAxisModifier
deriving DecidableEq, Repr

/-- Persisted form of `VirtualAxisTrimModifier`. -/
inductive PersistedVirtualAxisTrimModifier where
  | Click : (params : PersistedVirtualAxisTrimParams) → PersistedVirtualAxisTrimModifier
  | Linear : (params : PersistedVirtualAxisTrimParams) → PersistedVirtualAxisTrimModifier
deriving DecidableEq, Repr

/-- Persisted form of `RerouteRebind` (hat and merge modifiers carry no state and keep
their tags). -/
inductive PersistedRerouteRebind where
  | ButtonToButton : String → Nat → Nat → Nat → PersistedButtonToButtonModifier →
      PersistedRerouteRebind
  | TwoButtonsToAxis : String → Nat → String → Nat → Nat → Nat →
      PersistedTwoButtonsToAxisModifier → PersistedRerouteRebind
  | HatToHat : String → Nat → Nat → Nat → HatToHatModifier → PersistedRerouteRebind
  | AxisToAxis : String → Nat → Nat → Nat → PersistedAxisToAxisModifier →
      PersistedRerouteRebind
  | MergeAxes : String → Nat → String → Nat → Nat → Nat → MergeAxesModifier →
      PersistedRerouteRebind
deriving DecidableEq, Repr

/-- Persisted form of `VirtualRebind`. -/
inductive PersistedVirtualRebind where
  | VirtualAxisApplyButtonTrim : Nat → Nat → Nat → Nat → Nat → Nat → Nat → Nat →
      PersistedVirtualAxisTrimModifier → PersistedVirtualRebind
deriving DecidableEq, Repr

/-- Persisted form of `RebindType` (logical rebinds have no transient state). -/
inductive PersistedRebindType where
  | Logical : (rebind : LogicalRebind) → PersistedRebindType
  | Reroute : (rebind : PersistedRerouteRebind) → PersistedRebindType
  | Virtual : (rebind : PersistedVirtualRebind) → PersistedRebindType
deriving DecidableEq, Repr

/-- Persisted form of a `Rebind` record: `name`, `mode_mask` and the tagged payload,
as in the on-disk document of `src/config.rs`. -/
structure PersistedRebind where
  name : String
  mode_mask : ShiftModeMask
  rebind_type : PersistedRebindType
deriving DecidableEq, Repr

/-- Persisted form of a `Config` document. -/
structure PersistedConfig where
  name : String
  default_shift_mode : ShiftModeMask
  rebinds : List PersistedRebind
deriving DecidableEq, Repr

/-- Modelled from the spec, section 4.4 (the on-disk encoding choice is out of scope):
serialization emits exactly the fields of `ActivationIntervalParams` that are not marked
`#[serde(skip_serializing)]` in the source. -/
def serializeActivationIntervalParams (p : ActivationIntervalParams) :
    PersistedActivationIntervalParams :=
  { interval_start := p.interval_start, interval_end := p.interval_end, sustain := p.sustain }

/-- Modelled from the spec, section 4.4: deserialization restores the persisted fields and
defaults the `#[serde(default)]` transient ones (`false`, `0.0`). -/
def parseActivationIntervalParams (p : PersistedActivationIntervalParams) :
    ActivationIntervalParams :=
  { interval_start := p.interval_start, interval_end := p.interval_end, sustain := p.sustain
    last_input := false, activation_start := 0, activation_end := 0 }

/-- Reset the transient (non-persisted) fields of `ActivationIntervalParams` to defaults. -/
def clearActivationIntervalParams (p : ActivationIntervalParams) : ActivationIntervalParams :=
  { p with last_input := false, activation_start := 0, activation_end := 0 }

/-- Serialization of `AxisParams`: the `avg_data` ring buffer is not emitted. -/
def serializeAxisParams (p : AxisParams) : PersistedAxisParams :=
  { deadzone_center := p.deadzone_center, clamp_min := p.clamp_min, clamp_max := p.clamp_max
    invert := p.invert, linearity := p.linearity, offset := p.offset
    avg_filter := p.avg_filter }

/-- Deserialization of `AxisParams`: `avg_data` defaults to `(0, [])`. -/
def parseAxisParams (p : PersistedAxisParams) : AxisParams :=
  { deadzone_center := p.deadzone_center, clamp_min := p.clamp_min, clamp_max := p.clamp_max
    invert := p.invert, linearity := p.linearity, offset := p.offset
    avg_filter := p.avg_filter, avg_data := (0, []) }

/-- Reset the transient fields of `AxisParams` to defaults. -/
def clearAxisParams (p : AxisParams) : AxisParams :=
  { p with avg_data := (0, []) }

/-- Serialization of `VirtualAxisTrimParams`: accumulator and edge latches are not emitted. -/
def serializeVirtualAxisTrimParams (p : VirtualAxisTrimParams) :
    PersistedVirtualAxisTrimParams :=
  { value_normalized := p.value_normalized }

/-- Deserialization of `VirtualAxisTrimParams` with defaulted transient fields. -/
def parseVirtualAxisTrimParams (p : PersistedVirtualAxisTrimParams) : VirtualAxisTrimParams :=
  { value_normalized := p.value_normalized, accumulated := 0
    last_input_neg := false, last_input_pos := false }

/-- Reset the transient fields of `VirtualAxisTrimParams` to defaults. -/
def clearVirtualAxisTrimParams (p : VirtualAxisTrimParams) : VirtualAxisTrimParams :=
  { p with accumulated := 0, last_input_neg := false, last_input_pos := false }

/-- Serialization of `ButtonToButtonModifier` (the `Toggle` latch persists in the source). -/
def serializeButtonToButtonModifier (m : ButtonToButtonModifier) :
    PersistedButtonToButtonModifier :=
  match m with
  | .Simple => .Simple
  | .Toggle last_input => .Toggle last_input
  | .ActivationIntervalSimple params =>
    .ActivationIntervalSimple (serializeActivationIntervalParams params)
  | .ActivationIntervalToggle params =>
    .ActivationIntervalToggle (serializeActivationIntervalParams params)

/-- Deserialization of `ButtonToButtonModifier`. -/
def parseButtonToButtonModifier (m : PersistedButtonToButtonModifier) :
    ButtonToButtonModifier :=
  match m with
  | .Simple => .Simple
  | .Toggle last_input => .Toggle last_input
  | .ActivationIntervalSimple params =>
    .ActivationIntervalSimple (parseActivationIntervalParams params)
  | .ActivationIntervalToggle params =>
    .ActivationIntervalToggle (parseActivationIntervalParams params)

/-- Reset the transient state of `ButtonToButtonModifier`. -/
def clearButtonToButtonModifier (m : ButtonToButtonModifier) : ButtonToButtonModifier :=
  match m with
  | .Simple => .Simple
  | .Toggle last_input => .Toggle last_input
  | .ActivationIntervalSimple params =>
    .ActivationIntervalSimple (clearActivationIntervalParams params)
  | .ActivationIntervalToggle params =>
    .ActivationIntervalToggle (clearActivationIntervalParams params)

/-- Serialization of `TwoButtonsToAxisModifier`: the `Click` latches are not emitted. -/
def serializeTwoButtonsToAxisModifier (m : TwoButtonsToAxisModifier) :
    PersistedTwoButtonsToAxisModifier :=
  match m with
  | .Absolute => .Absolute
  | .Linear coefficient keep_value => .Linear coefficient keep_value
  | .Click coefficient _ _ => .Click coefficient

/-- Deserialization of `TwoButtonsToAxisModifier` with defaulted latches. -/
def parseTwoButtonsToAxisModifier (m : PersistedTwoButtonsToAxisModifier) :
    TwoButtonsToAxisModifier :=
  match m with
  | .Absolute => .Absolute
  | .Linear coefficient keep_value => .Linear coefficient keep_value
  | .Click coefficient => .Click coefficient false false

/-- Reset the transient state of `TwoButtonsToAxisModifier`. -/
def clearTwoButtonsToAxisModifier (m : TwoButtonsToAxisModifier) : TwoButtonsToAxisModifier :=
  match m with
  | .Absolute => .Absolute
  | .Linear coefficient keep_value => .Linear coefficient keep_value
  | .Click coefficient _ _ => .Click coefficient false false

/-- Serialization of `AxisToAxisModifier`. -/
def serializeAxisToAxisModifier (m : AxisToAxisModifier) : PersistedAxisToAxisModifier :=
  match m with
  | .Parameterized params => .Parameterized (serializeAxisParams params)

/-- Deserialization of `AxisToAxisModifier`. -/
def parseAxisToAxisModifier (m : PersistedAxisToAxisModifier) : AxisToAxisModifier :=
  match m with
  | .Parameterized params => .Parameterized (parseAxisParams params)

/-- Reset the transient state of `AxisToAxisModifier`. -/
def clearAxisToAxisModifier (m : AxisToAxisModifier) : AxisToAxisModifier :=
  match m with
  | .Parameterized params => .Parameterized (clearAxisParams params)

/-- Serialization of `VirtualAxisTrimModifier`. -/
def serializeVirtualAxisTrimModifier (m : VirtualAxisTrimModifier) :
    PersistedVirtualAxisTrimModifier :=
  match m with
  | .Click params => .Click (serializeVirtualAxisTrimParams params)
  | .Linear params => .Linear (serializeVirtualAxisTrimParams params)

/-- Deserialization of `VirtualAxisTrimModifier`. -/
def parseVirtualAxisTrimModifier (m : PersistedVirtualAxisTrimModifier) :
    VirtualAxisTrimModifier :=
  match m with
  | .Click params => .Click (parseVirtualAxisTrimParams params)
  | .Linear params => .Linear (parseVirtualAxisTrimParams params)

/-- Reset the transient state of `VirtualAxisTrimModifier`. -/
def clearVirtualAxisTrimModifier (m : VirtualAxisTrimModifier) : VirtualAxisTrimModifier :=
  match m with
  | .Click params => .Click (clearVirtualAxisTrimParams params)
  | .Linear params => .Linear (clearVirtualAxisTrimParams params)

/-- Serialization of `RerouteRebind`. -/
def serializeRerouteRebind (r : RerouteRebind) : PersistedRerouteRebind :=
  match r with
  | .ButtonToButton a b c d modifier =>
    .ButtonToButton a b c d (serializeButtonToButtonModifier modifier)
  | .TwoButtonsToAxis a b c d e f modifier =>
    .TwoButtonsToAxis a b c d e f (serializeTwoButtonsToAxisModifier modifier)
  | .HatToHat a b c d modifier => .HatToHat a b c d modifier
  | .AxisToAxis a b c d modifier => .AxisToAxis a b c d (serializeAxisToAxisModifier modifier)
  | .MergeAxes a b c d e f modifier => .MergeAxes a b c d e f modifier

/-- Deserialization of `RerouteRebind`. -/
def parseRerouteRebind (r : PersistedRerouteRebind) : RerouteRebind :=
  match r with
  | .ButtonToButton a b c d modifier =>
    .ButtonToButton a b c d (parseButtonToButtonModifier modifier)
  | .TwoButtonsToAxis a b c d e f modifier =>
    .TwoButtonsToAxis a b c d e f (parseTwoButtonsToAxisModifier modifier)
  | .HatToHat a b c d modifier => .HatToHat a b c d modifier
  | .AxisToAxis a b c d modifier => .AxisToAxis a b c d (parseAxisToAxisModifier modifier)
  | .MergeAxes a b c d e f modifier => .MergeAxes a b c d e f modifier

/-- Reset the transient state of `RerouteRebind`. -/
def clearRerouteRebind (r : RerouteRebind) : RerouteRebind :=
  match r with
  | .ButtonToButton a b c d modifier =>
    .ButtonToButton a b c d (clearButtonToButtonModifier modifier)
  | .TwoButtonsToAxis a b c d e f modifier =>
    .TwoButtonsToAxis a b c d e f (clearTwoButtonsToAxisModifier modifier)
  | .HatToHat a b c d modifier => .HatToHat a b c d modifier
  | .AxisToAxis a b c d modifier => .AxisToAxis a b c d (clearAxisToAxisModifier modifier)
  | .MergeAxes a b c d e f modifier => .MergeAxes a b c d e f modifier

/-- Serialization of `VirtualRebind`. -/
def serializeVirtualRebind (r : VirtualRebind) : PersistedVirtualRebind :=
  match r with
  | .VirtualAxisApplyButtonTrim a b c d e f g h modifier =>
    .VirtualAxisApplyButtonTrim a b c d e f g h (serializeVirtualAxisTrimModifier modifier)

/-- Deserialization of `VirtualRebind`. -/
def parseVirtualRebind (r : PersistedVirtualRebind) : VirtualRebind :=
  match r with
  | .VirtualAxisApplyButtonTrim a b c d e f g h modifier =>
    .VirtualAxisApplyButtonTrim a b c d e f g h (parseVirtualAxisTrimModifier modifier)

/-- Reset the transient state of `VirtualRebind`. -/
def clearVirtualRebind (r : VirtualRebind) : VirtualRebind :=
  match r with
  | .VirtualAxisApplyButtonTrim a b c d e f g h modifier =>
    .VirtualAxisApplyButtonTrim a b c d e f g h (clearVirtualAxisTrimModifier modifier)

/-- Serialization of `RebindType`. -/
def serializeRebindType (t : RebindType) : PersistedRebindType :=
  match t with
  | .Logical rebind => .Logical rebind
  | .Reroute rebind => .Reroute (serializeRerouteRebind rebind)
  | .Virtual rebind => .Virtual (serializeVirtualRebind rebind)

/-- Deserialization of `RebindType`. -/
def parseRebindType (t : PersistedRebindType) : RebindType :=
  match t with
  | .Logical rebind => .Logical rebind
  | .Reroute rebind => .Reroute (parseRerouteRebind rebind)
  | .Virtual rebind => .Virtual (parseVirtualRebind rebind)

/-- Reset the transient state of `RebindType`. -/
def clearRebindType (t : RebindType) : RebindType :=
  match t with
  | .Logical rebind => .Logical rebind
  | .Reroute rebind => .Reroute (clearRerouteRebind rebind)
  | .Virtual rebind => .Virtual (clearVirtualRebind rebind)

/-- Serialization of a `Rebind` record. -/
def serializeRebind (r : Rebind) : PersistedRebind :=
  { name := r.name, mode_mask := r.mode_mask, rebind_type := serializeRebindType r.rebind_type }

/-- Deserialization of a `Rebind` record. -/
def parseRebind (r : PersistedRebind) : Rebind :=
  { name := r.name, mode_mask := r.mode_mask, rebind_type := parseRebindType r.rebind_type }

/-- Reset the transient state of a `Rebind` record. -/
def clearRebind (r : Rebind) : Rebind :=
  { r with rebind_type := clearRebindType r.rebind_type }

/-- Serialization of a whole `Config`, as written by `Config::write_to_path`
(`src/config.rs` lines 40-46), with the toml encoding abstracted away. -/
def serializeConfig (c : Config) : PersistedConfig :=
  { name := c.name, default_shift_mode := c.default_shift_mode
    rebinds := c.rebinds.map serializeRebind }

/-- Deserialization of a whole `Config`, as read by `Config::read_from_path`
(`src/config.rs` lines 48-59), with the toml decoding abstracted away. -/
def parseConfig (c : PersistedConfig) : Config :=
  { name := c.name, default_shift_mode := c.default_shift_mode
    rebinds := c.rebinds.map parseRebind }

/-- Reset the transient modifier state of every rebind of a `Config`. -/
def clearConfig (c : Config) : Config :=
  { c with rebinds := c.rebinds.map clearRebind }

/-- Equality of configurations up to transient modifier state: both sides agree after the
transient (non-persisted) fields are reset to their defaults. -/
def configEqUpToTransient (a b : Config) : Prop :=
  clearConfig a = clearConfig b

/-- Decidable equality for `Except`, used to evaluate validator and process results on
concrete inputs. -/
instance {ε α : Type} [DecidableEq ε] [DecidableEq α] : DecidableEq (Except ε α)
  | .error e, .error f =>
    match decEq e f with
    | isTrue h => isTrue (by rw [h])
    | isFalse h => isFalse (by intro hh; injection hh; contradiction)
  | .error _, .ok _ => isFalse (by intro hh; cases hh)
  | .ok _, .error _ => isFalse (by intro hh; cases hh)
  | .ok x, .ok y =>
    match decEq x y with
    | isTrue h => isTrue (by rw [h])
    | isFalse h => isFalse (by intro hh; injection hh; contradiction)

/-- A fold that only ever switches the accumulator to `false` computes the conjunction of
the accumulator with the pointwise test; this is the shape of the `for bit in 0..8` loop
of `Rebind::is_active`. -/
theorem foldl_if_false_eq_all {p : Nat → Prop} [DecidablePred p] :
    ∀ (l : List Nat) (acc : Bool),
      l.foldl (fun active bit => if p bit then false else active) acc
        = (acc && l.all fun bit => !(decide (p bit))) := by
  intro l
  induction l with
  | nil => intro acc; simp
  | cons x l ih =>
    intro acc
    simp only [List.foldl_cons, List.all_cons, ih]
    by_cases h : p x
    · simp [h]
    · cases acc <;> simp [h]

/-- Testing a single bit with `&&& (1 <<< i)` agrees with `Nat.testBit`. -/
theorem and_one_shift_eq_zero_iff (V i : Nat) :
    (V &&& (1 <<< i) = 0) ↔ V.testBit i = false := by
  rw [Nat.one_shiftLeft, Nat.and_two_pow]
  cases h : V.testBit i <;> simp [h, Nat.pow_eq_zero]

/-- If every low bit of `M ||| (R ^^^ 255)` is set then `M` covers `R` (for `R < 256`). -/
theorem mask_superset_of_bits (R M : Nat) (hR : R < 256)
    (H : ∀ i, i < 8 → (M ||| (R ^^^ 255)).testBit i = true) :
    M &&& R = R := by
  apply Nat.eq_of_testBit_eq
  intro i
  rcases lt_or_le i 8 with hi | hi
  · have h255 : (255 : Nat).testBit i = true := by
      have h8 : (255 : Nat) = 2 ^ 8 - 1 := by norm_num
      rw [h8, Nat.testBit_two_pow_sub_one]
      simpa using hi
    have hbit := H i hi
    rw [Nat.testBit_lor, Nat.testBit_xor, h255] at hbit
    rw [Nat.testBit_land]
    cases hMR : R.testBit i
    · simp [hMR]
    · rw [hMR] at hbit
      simp at hbit
      simp [hbit, hMR]
  · have hRi : R.testBit i = false := by
      apply Nat.testBit_lt_two_pow
      calc R < 256 := hR
        _ = 2 ^ 8 := by norm_num
        _ ≤ 2 ^ i := Nat.pow_le_pow_right (by norm_num) hi
    rw [Nat.testBit_land, hRi]
    simp

/-- Conversely, if `M` covers `R` then every low bit of `M ||| (R ^^^ 255)` is set. -/
theorem bits_of_mask_superset (R M : Nat) (h : M &&& R = R) :
    ∀ i, i < 8 → (M ||| (R ^^^ 255)).testBit i = true := by
  intro i hi
  have h255 : (255 : Nat).testBit i = true := by
    have h8 : (255 : Nat) = 2 ^ 8 - 1 := by norm_num
    rw [h8, Nat.testBit_two_pow_sub_one]
    simpa using hi
  rw [Nat.testBit_lor, Nat.testBit_xor, h255]
  cases hRi : R.testBit i
  · simp
  · have hMi := congrArg (fun n => n.testBit i) h
    simp only [Nat.testBit_land, hRi, Bool.and_true] at hMi
    simp [hMi]

/-- C1: for every current mask `M` and required mask `R` (an 8-bit value),
`Rebind::is_active(M)` with `mode_mask R` returns true if and only if `(M & R) == R`;
in particular a required mask of 0 is active under every current mask. -/
theorem C1_is_active_iff_mask_superset (r : Rebind) (m : ShiftModeMask)
    (hR : r.mode_mask.val < 256) :
    (r.is_active m = true ↔ m.val &&& r.mode_mask.val = r.mode_mask.val) ∧
    (r.mode_mask.val = 0 → r.is_active m = true) := by
  have key : r.is_active m = true ↔
      ∀ i, i < 8 → (m.val ||| (r.mode_mask.val ^^^ 255)).testBit i = true := by
    unfold Rebind.is_active
    rw [foldl_if_false_eq_all]
    simp only [Bool.true_and, List.all_eq_true, List.mem_range]
    constructor
    · intro H i hi
      have hit := H i hi
      by_cases hz : (m.val ||| (r.mode_mask.val ^^^ 255)) &&& (1 <<< i) = 0
      · simp [hz] at hit
      · rcases Bool.eq_false_or_eq_true ((m.val ||| (r.mode_mask.val ^^^ 255)).testBit i)
          with ht | hf
        · exact ht
        · exact absurd ((and_one_shift_eq_zero_iff _ _).mpr hf) hz
    · intro H i hi
      have ht := H i hi
      have hnz : ¬((m.val ||| (r.mode_mask.val ^^^ 255)) &&& (1 <<< i) = 0) := by
        rw [and_one_shift_eq_zero_iff]
        simp [ht]
      simp [hnz]
  constructor
  · rw [key]
    exact ⟨mask_superset_of_bits _ _ hR, bits_of_mask_superset _ _⟩
  · intro h0
    rw [key]
    intro i hi
    rw [h0]
    have h255 : (255 : Nat).testBit i = true := by
      have h8 : (255 : Nat) = 2 ^ 8 - 1 := by norm_num
      rw [h8, Nat.testBit_two_pow_sub_one]
      simpa using hi
    rw [Nat.testBit_lor, Nat.testBit_xor]
    simp [h255]

/-- Concrete rebind with required mask 129, used by the C1 witness. -/
def witnessRebindC1 : Rebind :=
  { name := "w1"
    mode_mask := ⟨129⟩
    rebind_type := .Reroute (.HatToHat "d" 1 1 1 .Simple) }

/-- Witness for C1 at the concrete rebind with required mask 129 and current mask 193. -/
theorem C1_is_active_iff_mask_superset_witness :
    witnessRebindC1.mode_mask.val < 256 ∧
    ((witnessRebindC1.is_active ⟨193⟩ = true ↔
        (193 : Nat) &&& witnessRebindC1.mode_mask.val = witnessRebindC1.mode_mask.val) ∧
      (witnessRebindC1.mode_mask.val = 0 → witnessRebindC1.is_active ⟨193⟩ = true)) :=
  ⟨by decide, C1_is_active_iff_mask_superset witnessRebindC1 ⟨193⟩ (by decide)⟩

/-- C2: when one rebind's device or channel reference fails to resolve during a tick, the
per-tick `process` skips only that rebind: its own state and the virtual devices are left
untouched, every remaining rebind is still evaluated exactly as it would have been without
the failing one, and the failure is not propagated out of `process` (which is total). -/
theorem C2_process_skips_unresolved_rebind
    (m : ShiftModeMask) (nm : String) (mm : ShiftModeMask) (rr : RerouteRebind)
    (rs : List Rebind) (physical : List PhysicalDevice) (virt : List VirtualDevice)
    (time delta_t : Rat) (e : Error)
    (hfail : rr.process physical virt time delta_t = .error e) :
    RebindProcessor.process ⟨m, ⟨nm, mm, .Reroute rr⟩ :: rs⟩ physical virt time delta_t =
      (⟨(RebindProcessor.process ⟨m, rs⟩ physical virt time delta_t).1.active_shift_mode,
        ⟨nm, mm, .Reroute rr⟩ ::
          (RebindProcessor.process ⟨m, rs⟩ physical virt time delta_t).1.rebinds⟩,
       (RebindProcessor.process ⟨m, rs⟩ physical virt time delta_t).2) := by
  unfold RebindProcessor.process
  simp only [phase_logical, phase_reroute, phase_virtual, hfail, ite_self]

/-- Rebind whose source device reference cannot resolve, used by the C2 witness. -/
def witnessRebindC2 : Rebind :=
  { name := "w2"
    mode_mask := ⟨0⟩
    rebind_type := .Reroute (.ButtonToButton "nodev" 1 1 1 .Simple) }

/-- Witness for C2: with no physical devices connected, the button-to-button rebind fails to
resolve, and the tick's `process` behaves exactly as on the remaining (empty) list. -/
theorem C2_process_skips_unresolved_rebind_witness :
    (RerouteRebind.ButtonToButton "nodev" 1 1 1 .Simple).process [] [] 0 0 =
      .error (.RebindValidatePhysicalButtonFailed "nodev" 1) ∧
    RebindProcessor.process ⟨⟨0⟩, [witnessRebindC2]⟩ [] [] 0 0 =
      (⟨(RebindProcessor.process ⟨⟨0⟩, []⟩ [] [] 0 0).1.active_shift_mode,
        witnessRebindC2 :: (RebindProcessor.process ⟨⟨0⟩, []⟩ [] [] 0 0).1.rebinds⟩,
       (RebindProcessor.process ⟨⟨0⟩, []⟩ [] [] 0 0).2) :=
  ⟨rfl, C2_process_skips_unresolved_rebind ⟨0⟩ "w2" ⟨0⟩ _ [] [] [] 0 0
    (.RebindValidatePhysicalButtonFailed "nodev" 1) rfl⟩

/-- C3: the activation-interval state machine of the source agrees, on every state and
input, with the specification's six-step description: arm on press, record release, return
false while held or when the press duration falls outside `[interval_start, interval_end)`,
return `passed < sustain` when a sustain is in use, and otherwise fire exactly on release. -/
theorem C3_activation_interval_update_matches_spec
    (p : ActivationIntervalParams) (state : Bool) (time : Rat) (use_sustain : Bool) :
    (p.update state time use_sustain).1 = p.update_spec state time use_sustain := by
  cases state <;> cases hl : p.last_input <;> cases use_sustain <;> cases hs : p.sustain <;>
    simp [ActivationIntervalParams.update, ActivationIntervalParams.update_spec, hl, hs] <;>
    split <;> simp_all <;> intros <;>
    first
      | linarith
      | (rcases ‹_ ∨ _› with hc | hc <;> linarith)

/-- Counterexample for C4: with `clamp_min = 1/2` the lower endpoint of the spec's clamp
interval is `-32768·(1 - 1/2) = -16384`, but the clamp stage sends the value `-20000`
(which lies below that endpoint) to `-32768`, not to the endpoint. -/
theorem C4_clamp_endpoint_counterexample :
    clampStage ((1 : Rat)/2) 1 (-20000) = -32768 ∧
    clampStage ((1 : Rat)/2) 1 (-20000) ≠ -32768 * (1 - (1 : Rat)/2) := by
  constructor <;> norm_num [clampStage]

/-- C4 (amended): values at or below the lower clamp bound `-32768·(1-clamp_min)` snap to
the full-scale minimum `-32768`, and values at or above the upper bound `32767·clamp_max`
snap to the full-scale maximum `32767` — the extremes of the axis range, not the endpoints
of the clamp interval. -/
theorem C4_clamp_snaps_to_full_range (clamp_min clamp_max v : Rat) :
    (v ≤ -32768 + 32768 * clamp_min → clampStage clamp_min clamp_max v = -32768) ∧
    (¬(v ≤ -32768 + 32768 * clamp_min) → 32767 * clamp_max ≤ v →
      clampStage clamp_min clamp_max v = 32767) := by
  unfold clampStage
  constructor
  · intro h
    simp [h]
  · intro h1 h2
    simp [h1, h2]

/-- Witness for C4 (amended) at `clamp_min = 1/2`, `clamp_max = 1/2`, `v = 20000`. -/
theorem C4_clamp_snaps_to_full_range_witness :
    ¬((20000 : Rat) ≤ -32768 + 32768 * ((1 : Rat)/2)) ∧
    (32767 : Rat) * ((1 : Rat)/2) ≤ 20000 ∧
    clampStage ((1 : Rat)/2) ((1 : Rat)/2) 20000 = 32767 :=
  ⟨by norm_num, by norm_num,
    (C4_clamp_snaps_to_full_range ((1 : Rat)/2) ((1 : Rat)/2) 20000).2
      (by norm_num) (by norm_num)⟩

/-- Physical device with two buttons, used by the C5 counterexample. -/
def witnessDeviceC5 : PhysicalDevice :=
  { guid := "dev0"
    input_state := { buttons := [true, false], axes := [], hats := [] } }

/-- Counterexample for C5: a lookup with channel index 0 does not return the `Empty`
failure (`Error::EmptyRebindOrInvalidID`); the wrapped index misses every button and the
validator reports the generic resolve failure naming the device and the channel. -/
theorem C5_zero_channel_counterexample :
    validate_value_physical_button [witnessDeviceC5] "dev0" 0 =
      .error (.RebindValidatePhysicalButtonFailed "dev0" 0) ∧
    validate_value_physical_button [witnessDeviceC5] "dev0" 0 ≠
      .error .EmptyRebindOrInvalidID := by
  constructor
  · rfl
  · decide

/-- C5 (amended): a physical-button lookup with channel index 0 always returns the typed
`RebindValidatePhysicalButtonFailed` resolve failure (there is no dedicated `Empty` failure
for a zero channel); under the release-build wrapping semantics the function is total —
the index wraps to `usize::MAX`, which lies beyond any device's button vector. -/
theorem C5_zero_channel_resolve_error (devs : List PhysicalDevice) (dev : String)
    (hlen : ∀ d ∈ devs, d.input_state.buttons.length < 2 ^ 64) :
    validate_value_physical_button devs dev 0 =
      .error (.RebindValidatePhysicalButtonFailed dev 0) := by
  unfold validate_value_physical_button
  cases hfind : devs.find? (fun d => d.guid = dev) with
  | none => simp [hfind]
  | some d =>
    have hd : d ∈ devs := List.mem_of_find?_eq_some hfind
    have hnone : d.input_state.buttons[usize_wrapping_sub_one 0]? = none := by
      apply List.getElem?_eq_none
      have := hlen d hd
      unfold usize_wrapping_sub_one
      omega
    simp [hfind, hnone]

/-- Physical device used by the C5 witness. -/
def witnessDeviceC5b : PhysicalDevice :=
  { guid := "devA"
    input_state := { buttons := [false], axes := [], hats := [] } }

/-- Witness for C5 (amended) on a concrete single-device list. -/
theorem C5_zero_channel_resolve_error_witness :
    (∀ d ∈ [witnessDeviceC5b], d.input_state.buttons.length < 2 ^ 64) ∧
    validate_value_physical_button [witnessDeviceC5b] "devA" 0 =
      .error (.RebindValidatePhysicalButtonFailed "devA" 0) :=
  ⟨by decide, C5_zero_channel_resolve_error [witnessDeviceC5b] "devA" (by decide)⟩

/-- Lemma for C6: deserializing the serialization of one rebind record restores exactly the
persistent fields and defaults the transient ones. -/
theorem parse_serialize_rebind (r : Rebind) :
    parseRebind (serializeRebind r) = clearRebind r := by
  obtain ⟨nm, mask, ty⟩ := r
  cases ty with
  | Logical lr => rfl
  | Reroute rr =>
    cases rr with
    | ButtonToButton a b c d modifier => cases modifier <;> rfl
    | TwoButtonsToAxis a b c d e f modifier => cases modifier <;> rfl
    | HatToHat a b c d modifier => rfl
    | AxisToAxis a b c d modifier => cases modifier <;> rfl
    | MergeAxes a b c d e f modifier => rfl
  | Virtual vr =>
    cases vr with
    | VirtualAxisApplyButtonTrim a b c d e f g h modifier => cases modifier <;> rfl

/-- Lemma for C6: resetting the transient state of a rebind record is idempotent. -/
theorem clearRebind_idem (r : Rebind) :
    clearRebind (clearRebind r) = clearRebind r := by
  obtain ⟨nm, mask, ty⟩ := r
  cases ty with
  | Logical lr => rfl
  | Reroute rr =>
    cases rr with
    | ButtonToButton a b c d modifier => cases modifier <;> rfl
    | TwoButtonsToAxis a b c d e f modifier => cases modifier <;> rfl
    | HatToHat a b c d modifier => rfl
    | AxisToAxis a b c d modifier => cases modifier <;> rfl
    | MergeAxes a b c d e f modifier => rfl
  | Virtual vr =>
    cases vr with
    | VirtualAxisApplyButtonTrim a b c d e f g h modifier => cases modifier <;> rfl

/-- C6: for every configuration, deserializing its serialization yields a configuration
equal to the original under the equality that ignores transient modifier state (filter ring
buffers, edge latches, trim accumulators), those fields being defaulted on load. -/
theorem C6_config_roundtrip_up_to_transient (c : Config) :
    configEqUpToTransient (parseConfig (serializeConfig c)) c := by
  unfold configEqUpToTransient clearConfig parseConfig serializeConfig
  simp only [List.map_map]
  congr 1
  apply List.map_congr_left
  intro r _
  show clearRebind (parseRebind (serializeRebind r)) = clearRebind r
  rw [parse_serialize_rebind, clearRebind_idem]

/-- Sign times normalized absolute value times full scale is the identity on the reals;
this is the linearity stage at exponent 1 (after `rpow_one`). -/
theorem rustSignum_mul_abs (v : Real) : rustSignum v * |v / 32767| * 32767 = v := by
  unfold rustSignum
  rcases lt_or_le v 0 with h | h
  · rw [if_pos h, abs_div, abs_of_neg h, abs_of_pos (show (0:Real) < 32767 by norm_num)]
    field_simp
  · rw [if_neg (not_lt.mpr h), abs_div, abs_of_nonneg h,
      abs_of_pos (show (0:Real) < 32767 by norm_num)]
    field_simp

/-- With `clamp_min = 0` and `clamp_max = 1` the clamp stage is the identity on
`[-32768, 32767]`. -/
theorem clampStage_zero_one (v : Real) (h1 : -32768 ≤ v) (h2 : v ≤ 32767) :
    clampStage 0 1 v = v := by
  unfold clampStage
  norm_num
  by_cases ha : v ≤ -32768
  · rw [if_pos ha]
    linarith
  · rw [if_neg ha]
    by_cases hb : 32767 ≤ v
    · rw [if_pos hb]
      linarith
    · rw [if_neg hb]

/-- C7: with `linearity = 1`, `offset = 0`, `deadzone_center = 0`, `clamp_min = 0`,
`clamp_max = 1`, `invert = false` and a size-1 averaging filter (ring buffer in its
steady state: head 0, at most one stored sample), `apply_axis_modifier` returns its
input unchanged for every input in `[-32768, 32767]`. -/
theorem C7_identity_axis_params (x : Int) (hlo : -32768 ≤ x) (hhi : x ≤ 32767)
    (data : List Int) (hdata : data.length ≤ 1) :
    (apply_axis_modifier x (.Parameterized
      { deadzone_center := 0, clamp_min := 0, clamp_max := 1, invert := false,
        linearity := 1, offset := 0, avg_filter := 1, avg_data := (0, data) })).1 = x := by
  have hdata2 : data = [] ∨ ∃ d, data = [d] := by
    cases data with
    | nil => exact Or.inl rfl
    | cons d t =>
      cases t with
      | nil => exact Or.inr ⟨d, rfl⟩
      | cons d2 t2 => simp at hdata
  have hlo' : (-32768 : Real) ≤ (x : Real) := by exact_mod_cast hlo
  have hhi' : (x : Real) ≤ 32767 := by exact_mod_cast hhi
  have hw : (if 0 ≤ x ∧ x ≤ 0 then (0 : Real) else (x : Real)) = (x : Real) := by
    by_cases hx : 0 ≤ x ∧ x ≤ 0
    · have hx0 : x = 0 := le_antisymm hx.2 hx.1
      simp [hx, hx0]
    · simp [hx]
  rcases hdata2 with h | ⟨d, h⟩ <;> subst h <;>
    simp only [apply_axis_modifier, listResize] <;> norm_num <;>
    rw [hw, clampStage_zero_one _ hlo' hhi', rustSignum_mul_abs] <;>
    exact Int.floor_intCast x

/-- Witness for C7 at input 16384 with a fresh (empty) filter buffer. -/
theorem C7_identity_axis_params_witness :
    (-32768 : Int) ≤ 16384 ∧ (16384 : Int) ≤ 32767 ∧ ([] : List Int).length ≤ 1 ∧
    (apply_axis_modifier 16384 (.Parameterized
      { deadzone_center := 0, clamp_min := 0, clamp_max := 1, invert := false,
        linearity := 1, offset := 0, avg_filter := 1, avg_data := (0, []) })).1 = 16384 :=
  ⟨by decide, by decide, by decide,
    C7_identity_axis_params 16384 (by decide) (by decide) [] (by decide)⟩

/-- C8: after constructing or loading the processor with a given `Config`, the processor's
current shift mode mask equals that config's `default_shift_mode`, for every config. -/
theorem C8_processor_mask_initialized_from_config (c : Config) :
    (RebindProcessor.fromConfig c).active_shift_mode = c.default_shift_mode := rfl

/-- C9: evaluating a `MomentaryDisableShiftMode` rebind whose source button resolves to `b`
clears the bits of its shift mask from the live mask when `b` is true (pressed), and ORs
those bits back in when `b` is false (released) — the disable variant actively re-enables
its mask bits on release rather than leaving the mask unchanged. -/
theorem C9_momentary_disable_sets_on_release
    (physical_devices : List PhysicalDevice) (dev : String) (btn : Nat)
    (s mask : ShiftModeMask) (b : Bool)
    (hres : validate_value_physical_button physical_devices dev btn = .ok b) :
    (LogicalRebind.MomentaryDisableShiftMode dev btn s).process physical_devices mask =
      .ok (if b then ⟨mask.val &&& u8_not s.val⟩ else ⟨mask.val ||| s.val⟩) := by
  simp only [LogicalRebind.process, hres]
  cases b <;> rfl

/-- Physical device with one released button, used by the C9 witness. -/
def witnessDeviceC9 : PhysicalDevice :=
  { guid := "d"
    input_state := { buttons := [false], axes := [], hats := [] } }

/-- Witness for C9: with the source button released, the disable rebind ORs the mask bits
back into the live mask (`16 ||| 3 = 19`). -/
theorem C9_momentary_disable_sets_on_release_witness :
    validate_value_physical_button [witnessDeviceC9] "d" 1 = .ok false ∧
    (LogicalRebind.MomentaryDisableShiftMode "d" 1 ⟨3⟩).process [witnessDeviceC9] ⟨16⟩ =
      .ok ⟨(16 : Nat) ||| 3⟩ :=
  ⟨rfl, C9_momentary_disable_sets_on_release [witnessDeviceC9] "d" 1 ⟨3⟩ ⟨16⟩ false rfl⟩

/-- C10: in the `Linear` two-buttons-to-axis modifier, a call with both buttons held
returns the current output value unchanged apart from the final clamp to `[0, 32767]`,
and the modifier state is returned unaltered, for every state and every time step. -/
theorem C10_linear_both_buttons_held (coefficient : Rat) (keep_value : Bool)
    (output : Int) (delta_t : Rat) :
    apply_two_buttons_to_axis_modifier true true output (.Linear coefficient keep_value)
        delta_t
      = (int_clamp output 0 32767, .Linear coefficient keep_value) := rfl
